import Mathlib

/-!
Verification development for the classy asteroid-taxonomy classification engine.

The source is shallowly embedded over exact rationals (`ℚ`): every decimal
literal of the source is an exact `ℚ` literal, numpy arrays become `List ℚ`,
and fallible operations (attribute access, indexing, array broadcasting,
unpacking, raised exceptions) return `Except String _`.

Python name resolution is part of the embedded semantics: a name that no
module import binds raises `NameError` at its use site.  In the staged
sources this matters in four places.  `tholen.py` imports `functools.cache`
(line 2) and immediately rebinds the name `cache` to the `classy.cache`
module (line 4); the decorator application `@cache` at line 33 therefore
calls a module, so importing `tholen.py` raises `TypeError` before any of its
functions exists, and its decision tree additionally uses the never-imported
names `pd` and `np`.  `mahlke.py` never binds `logger`, so a firing coverage
gate raises `NameError` at `logger.info` before the empty class is assigned.
`demeo.py` never binds `classy` (it imports `classy.cache`, `classy.config`
and `logger` from `classy.log`, but not the package itself), so every
`classy.logging.logger.warning` call raises `NameError` at its site, while
the plain `logger` calls are real; and it never binds `data`, so `classify`
raises `NameError` at line 105 on every call that reaches it.  Calls of the
bound `logger` and of `print` are modelled as messages appended to a `log`
field where the state survives to the result.  The numpy truth-value rules
govern the array comparison in the DeMeo preprocessing gate: comparing the
wave array against the 41-point grid yields a boolean array (ambiguous truth
value, `ValueError`) for broadcast-compatible lengths and the scalar `True`
otherwise.

Albedo enters the Tholen tree only through `np.isnan(pV)` and the strictly
monotone map `-2.5 * log10(pV)`; the embedding carries `pVm : Option ℚ`
standing for `-2.5 * log10(pV)`, with `none` for NaN albedo, and IEEE
comparisons against NaN (always false) are modelled by `nanGT` / `nanLE`.
Definitions suffixed `Intended` give the semantics of the Tholen lines with
the module-level import slips repaired (numpy and pandas imported, the
`functools.cache` import not shadowed); they state the behaviour that the
docstrings and the spec describe and that the staged module cannot exhibit.
-/

namespace Classy

/-- Embedding of `numpy.arange(start, stop, step)`: the half-open grid
`start, start + step, ...` with `ceil((stop - start) / step)` points
(the stop value is excluded). -/
def npArange (start stop step : ℚ) : List ℚ :=
  (List.range (⌈(stop - start) / step⌉).toNat).map (fun k : ℕ => start + (k : ℚ) * step)

/-- Comparison `m > c` where `m` stands for a float that may be NaN
(`none`): any comparison against NaN is false. -/
def nanGT (m : Option ℚ) (c : ℚ) : Bool :=
  match m with
  | none => false
  | some v => decide (v > c)

/-- Comparison `m <= c` where `m` may be NaN (`none`): false for NaN. -/
def nanLE (m : Option ℚ) (c : ℚ) : Bool :=
  match m with
  | none => false
  | some v => decide (v ≤ c)

namespace Tholen

/-- The fields of a `classy.Spectrum` read by the Tholen decision tree
(`src/classy/taxonomies/tholen.py`).  `pVm` stands for `-2.5 * log10(pV)`
(`none` when `pV` is NaN); `is_preprocessed_tholen` and `name` are carried
to record that the tree never consults them. -/
structure TholenSpec where
  tholen_scores : List ℚ
  pVm : Option ℚ
  is_preprocessed_tholen : Bool
  name : String

/-- One row of the ECAS reference table loaded by `load_classification`
(the table is runtime data; the algorithm is parametric in it). -/
structure EcasRow where
  scores : List ℚ
  class_ : String

/-- The error with which importing `tholen.py` fails: line 2 imports
`functools.cache`, line 4 rebinds the name `cache` to the `classy.cache`
module, and line 33 applies `@cache` to `load_classification` — calling a
module — so the module body raises `TypeError` during import, before any
function of the module exists. -/
def tholenImportError : String := "TypeError: module object is not callable"

/-- Lines 52-100 of `tholen.py`: `decision_tree` as staged.  The enclosing
module raises `TypeError` while being imported (see `tholenImportError`),
so no call can be made: every attempted Tholen classification surfaces
that error, for any spectrum, whatever its fields.  Even were the
decorator slip repaired, the body could not run: its first statement calls
`load_classification`, whose `pd.read_csv` (line 49) uses the unbound name
`pd`, and lines 71-75 and 83-96 use the unbound names `np.linalg.norm`,
`np.argmin`, `np.isnan` and `np.log10`, each a `NameError` at its call
site. -/
def decision_tree (_spec : TholenSpec) : Except String String :=
  .error tholenImportError

/-- Squared Euclidean distance between two score vectors: the semantics of
the `np.linalg.norm` difference used by the intended model.
`np.linalg.norm(a - b)` is its square root; since the square root is
strictly monotone on nonnegative reals, the argmin over the table is
unchanged by working with squared distances, which stay in `ℚ`. -/
def sqDist : List ℚ → List ℚ → ℚ
  | x :: xs, y :: ys => (x - y) ^ 2 + sqDist xs ys
  | _, _ => 0

/-- Semantics of `np.argmin` on a nonempty list: the index of the first
occurrence of the minimum. -/
def argminFirst (l : List ℚ) : Nat :=
  match l.min? with
  | none => 0
  | some m => l.findIdx (fun x => decide (x = m))

/-- Intended semantics of lines 66-75 of `tholen.py`, with the module-level
slips repaired (numpy and pandas imported, `functools.cache` not
shadowed): distances from the spectrum scores to every reference row,
class of the nearest row (`np.argmin` ties broken by first occurrence;
empty table raises).  The staged module cannot execute these lines — see
`decision_tree` — so this definition exists to state the behaviour that
the docstring and the spec describe. -/
def tholenCoarseIntended (table : List EcasRow) (scores : List ℚ) : Except String String :=
  match table[(argminFirst (table.map (fun r => sqDist scores r.scores)))]? with
  | some r => .ok r.class_
  | none => .error "ValueError: attempt to get argmin of an empty sequence"

/-- Lines 77-79 of `tholen.py` (pure string logic, shared by the intended
model): a two-letter historical class keeps only its first letter. -/
def truncateAmbiguous (c : String) : String :=
  if c.length = 2 then c.take 1 else c

/-- Intended semantics of lines 81-100 of `tholen.py` (import slips
repaired): the albedo decision tree, on the (possibly truncated) coarse
class and `m = -2.5 * log10(pV)` (`none` for NaN `pV`). -/
def tholenAlbedoIntended (class_ : String) (m : Option ℚ) : String :=
  if class_ ∈ (["E", "M", "P", "X"] : List String) then
    if m.isNone then "X"
    else if nanGT m 3 then "P"
    else if nanGT m 1.4 then "M"
    else "E"
  else if class_ ∈ (["C", "F", "B", "G"] : List String) ∧ nanLE m 1.4 then "E"
  else if class_ ∈ (["C", "B"] : List String) then
    if nanGT m 3 then "C" else "B"
  else class_

/-- Intended semantics of `tholen.decision_tree` (import slips repaired):
nearest ECAS neighbour in the 7-dimensional PC space, two-letter
truncation, then the albedo subtree.  It reads only `spec.tholen_scores`
and `spec.pV`; in particular it never consults `is_preprocessed_tholen`. -/
def decision_treeIntended (table : List EcasRow) (spec : TholenSpec) : Except String String :=
  match tholenCoarseIntended table spec.tholen_scores with
  | .error e => .error e
  | .ok c => .ok (tholenAlbedoIntended (truncateAmbiguous c) spec.pVm)

end Tholen

namespace DeMeo

/-- The fields of a `classy.Spectrum` read or written by the DeMeo
classification path (`src/classy/taxonomies/demeo.py`).  `class_demeo` is
`Option String` so that Python `None` (`none`) is distinguished from the
empty-string sentinel (`some ""`).  The five per-component attributes
`pc0_demeo` .. `pc4_demeo` are `Option ℚ`: `none` means the attribute was
never assigned, so reading it raises `AttributeError`.  `log` accumulates
the messages of the bound logging and print calls. -/
structure DemeoSpec where
  wave : List ℚ
  refl : List ℚ
  slope : List ℚ
  is_preprocessed_demeo : Bool
  scores_demeo : List ℚ
  pc0_demeo : Option ℚ
  pc1_demeo : Option ℚ
  pc2_demeo : Option ℚ
  pc3_demeo : Option ℚ
  pc4_demeo : Option ℚ
  class_demeo : Option String
  name : String
  log : List String

/-- Python attribute read: `none` raises `AttributeError`. -/
def getAttr (a : Option ℚ) : Except String ℚ :=
  match a with
  | some v => .ok v
  | none => .error "AttributeError"

/-- `xs[0]` on a sequence: raises `IndexError` when empty. -/
def listHead (l : List ℚ) : Except String ℚ :=
  match l.head? with
  | some v => .ok v
  | none => .error "IndexError"

/-- Line 439 of `demeo.py`: `WAVE = np.arange(0.45, 2.5, 0.05)`. -/
def WAVE : List ℚ := npArange 0.45 2.5 0.05

/-- Lines 443-451 of `demeo.py`: `DATA_MEAN`, the published data mean of the
DeMeo+ 09 reflectance spectra (verbatim constants). -/
def DATA_MEAN : List ℚ :=
  [
    0.8840578, 0.94579985, 1.04016798, 1.07630094, 1.10387232, 1.10729138, 1.07101476, 1.02252107,
    0.99167561, 0.98766575, 1.00292349, 1.02223844, 1.04660108, 1.07201578, 1.08967345, 1.10014259,
    1.11101667, 1.12359452, 1.13128556, 1.13642896, 1.13467689, 1.12810013, 1.11471935, 1.09802574,
    1.07842635, 1.06127665, 1.04536074, 1.03360292, 1.02395605, 1.01587389, 1.01034821, 1.00915786,
    1.01078308, 1.01245031, 1.01298133, 1.01314109, 1.01236654, 1.01140562, 1.01090655, 1.00955344
  ]

/-- Lines 455-484 of `demeo.py`: `EIGENVECTORS`, the published principal
component basis (verbatim constants, five rows). -/
def EIGENVECTORS : List (List ℚ) :=
  [
    [-0.0766, -0.0391, 0.0438, 0.0876, 0.1256, 0.1466, 0.1271, 0.0888, 0.0680, 0.0857, 0.1371,
      0.1921, 0.2322, 0.2566, 0.2704, 0.2787, 0.2849, 0.2852, 0.2782, 0.2641, 0.2427, 0.2154,
      0.1841, 0.1531, 0.1247, 0.1002, 0.0804, 0.0665, 0.0570, 0.0513, 0.0502, 0.0538, 0.0607,
      0.0690, 0.0778, 0.0859, 0.0934, 0.0997, 0.1050, 0.1090],
    [-0.0643, -0.0279, 0.0176, 0.0343, 0.0471, 0.0096, -0.1186, -0.2673, -0.3645, -0.3743,
      -0.2899, -0.1527, -0.0381, 0.0306, 0.0708, 0.1053, 0.1385, 0.1598, 0.1645, 0.1520,
      0.1192, 0.0689, 0.0089, -0.0514, -0.1069, -0.1532, -0.1884, -0.2136, -0.2283, -0.2317,
      -0.2233, -0.2023, -0.1706, -0.1302, -0.0852, -0.0406, 0.0023, 0.0438, 0.0832, 0.1177],
    [-0.2724, -0.1270, 0.1128, 0.2104, 0.2726, 0.2475, 0.1486, 0.0420, -0.0385, -0.1168,
      -0.2083, -0.2809, -0.2747, -0.2169, -0.1713, -0.1427, -0.1031, -0.0407, 0.0243, 0.0930,
      0.1562, 0.2021, 0.2231, 0.2215, 0.2043, 0.1784, 0.1508, 0.1225, 0.0923, 0.0617, 0.0346,
      0.0136, -0.0038, -0.0229, -0.0447, -0.0678, -0.0911, -0.1153, -0.1389, -0.1580],
    [0.3046, 0.1525, -0.1486, -0.2677, -0.3386, -0.3284, -0.2392, -0.1453, -0.0921, -0.0505,
      -0.0289, -0.0277, -0.0160, 0.0077, 0.0304, 0.0450, 0.0608, 0.0842, 0.1104, 0.1387, 0.1609,
      0.1752, 0.1804, 0.1714, 0.1550, 0.1421, 0.1279, 0.1095, 0.0868, 0.0610, 0.0358, 0.0103,
      -0.0162, -0.0476, -0.0838, -0.1225, -0.1644, -0.2068, -0.2445, -0.2708],
    [-0.5174, -0.1876, 0.0593, 0.0754, 0.0523, -0.0231, -0.1466, -0.2569, -0.2293, -0.0657, 0.1077,
      0.1717, 0.1685, 0.1611, 0.1463, 0.1061, 0.0533, 0.0090, -0.0429, -0.0868, -0.1188, -0.1250,
      -0.1158, -0.0940, -0.0757, -0.0525, -0.0271, 0.0104, 0.0473, 0.0785, 0.1050, 0.1249, 0.1241,
      0.0916, 0.0354, -0.0327, -0.1126, -0.1993, -0.2884, -0.3767]
  ]

/-- Lines 12-30 of `demeo.py`: `is_classifiable`, true iff the wavelength
range of the spectrum covers the full DeMeo grid.  Both names it uses
(`np` through the array methods, `logger`) are bound in `demeo.py`, so the
function works — but `classify` never calls it. -/
def is_classifiable (wave : List ℚ) : Except String Bool :=
  match wave.min?, wave.max?, WAVE.min?, WAVE.max? with
  | some mn, some mx, some wmn, some wmx =>
    .ok (!(decide (mn > wmn) || decide (mx < wmx)))
  | _, _, _, _ => .error "ValueError: zero-size array reduction"

/-- The `NameError` raised by every `classy.logging.logger.warning` call in
`demeo.py`: the name `classy` is never bound there (the module imports
`classy.cache`, `classy.config` and `logger` from `classy.log`, not the
`classy` package itself). -/
def nameErrorClassy : String := "NameError: name classy is not defined"

/-- The `NameError` raised at line 105 of `demeo.py`
(`spec.scores_demeo = EIGENVECTORS @ data.T`): the name `data` is never
bound in `demeo.py`. -/
def nameErrorData : String := "NameError: name data is not defined"

/-- The `ValueError` numpy raises when a boolean array is used as a truth
value, as in `if spec.wave != WAVE` on broadcast-compatible arrays. -/
def ambiguousTruthMsg : String :=
  "ValueError: the truth value of an array with more than one element is ambiguous"

/-- Boundary lines of the DeMeo decision tree (lines 124-131, repeated at
210-217 and 266-273 of `demeo.py`), each giving the `pc1` value on the
line as a function of `pc2`. -/
def alpha (pc2 : ℚ) : ℚ := -3 * pc2 - 0.28

/-- Boundary line `beta`. -/
def beta (pc2 : ℚ) : ℚ := -3 * pc2 + 0.35

/-- Boundary line `gamma`. -/
def gamma (pc2 : ℚ) : ℚ := -3 * pc2 + 1.0

/-- Boundary line `delta`. -/
def delta (pc2 : ℚ) : ℚ := -3 * pc2 + 1.5

/-- Boundary line `epsilon`. -/
def epsilon (pc2 : ℚ) : ℚ := 1 / 3 * pc2 + 0.55

/-- Boundary line `zeta`. -/
def zeta (pc2 : ℚ) : ℚ := 1 / 3 * pc2 - 0.10

/-- Boundary line `eta`. -/
def eta (pc2 : ℚ) : ℚ := 1 / 3 * pc2 - 0.40

/-- Boundary line `theta`. -/
def theta (pc2 : ℚ) : ℚ := -3 * pc2 + 0.7

/-- Lines 200-252 of `demeo.py`: `demeo_s_complex`.  It re-reads the
principal components from the attributes `pc0_demeo` .. `pc3_demeo` (not
from `scores_demeo`), raising `AttributeError` when absent, and reads
`spec.slope[0]`.  The sequential `if ... return` blocks are an else-if
chain; none of the four resolving sub-branches logs.  The final fallback
(lines 248-252) assigns the named class `"S"` and then calls
`classy.logging.logger.warning` — `classy` is unbound — so it raises
`NameError` after the assignment and the call does not return normally. -/
def demeo_s_complex (spec : DemeoSpec) : Except String DemeoSpec :=
  match getAttr spec.pc0_demeo with
  | .error e => .error e
  | .ok pc1 =>
  match getAttr spec.pc1_demeo with
  | .error e => .error e
  | .ok pc2 =>
  match getAttr spec.pc2_demeo with
  | .error e => .error e
  | .ok _pc3 =>
  match getAttr spec.pc3_demeo with
  | .error e => .error e
  | .ok _pc4 =>
  match listHead spec.slope with
  | .error e => .error e
  | .ok slope =>
    if pc1 < beta pc2 ∧ pc1 > delta pc2 then
      if slope ≥ 0.25 then .ok { spec with class_demeo := some "Sw" }
      else .ok { spec with class_demeo := some "S" }
    else if pc1 ≥ alpha pc2 ∧ pc1 < beta pc2 ∧ pc1 > eta pc2 ∧ pc1 ≤ zeta pc2 then
      if slope ≥ 0.25 then .ok { spec with class_demeo := some "Sqw" }
      else .ok { spec with class_demeo := some "Sq" }
    else if pc1 ≥ beta pc2 ∧ pc1 < gamma pc2 ∧ pc1 > eta pc2 ∧ pc1 ≤ epsilon pc2 then
      if slope ≥ 0.25 then .ok { spec with class_demeo := some "Srw" }
      else .ok { spec with class_demeo := some "Sr" }
    else if pc1 ≥ beta pc2 ∧ pc1 > epsilon pc2 ∧ pc1 < gamma pc2 then
      if slope ≥ 0.25 then .ok { spec with class_demeo := some "Svw" }
      else .ok { spec with class_demeo := some "Sv" }
    else
      .error nameErrorClassy

/-- Lines 255-331 of `demeo.py`: `demeo_c_and_x_complexes`.  Like the
S-complex subtree it reads the (never-assigned) attributes `pc0_demeo` ..
`pc4_demeo` and `spec.slope[0]`.  The `B` branch (lines 275-277) and the
`Cb` branch (lines 300-302) assign and return without logging; the inner
wave-check sub-branch of the third block (lines 285-288) calls the
builtin `print`, assigns `""` and returns.  Every other branch — `X`,
`Cgh`, `Ch`, `C`, `Cg`, `Xk`, `Xe` and the final fallback — assigns its
class (the fallback assigns `""`) and then calls
`classy.logging.logger.warning` with `classy` unbound, raising `NameError`
after the assignment. -/
def demeo_c_and_x_complexes (spec : DemeoSpec) : Except String DemeoSpec :=
  match getAttr spec.pc0_demeo with
  | .error e => .error e
  | .ok pc1 =>
  match getAttr spec.pc1_demeo with
  | .error e => .error e
  | .ok pc2 =>
  match getAttr spec.pc2_demeo with
  | .error e => .error e
  | .ok _pc3 =>
  match getAttr spec.pc3_demeo with
  | .error e => .error e
  | .ok pc4 =>
  match getAttr spec.pc4_demeo with
  | .error e => .error e
  | .ok pc5 =>
  match listHead spec.slope with
  | .error e => .error e
  | .ok slope =>
    if -0.2 < slope ∧ slope < 0 ∧ -1.2 < pc1 ∧ pc1 < 0 ∧ pc4 < 0 then
      .ok { spec with class_demeo := some "B" }
    else if 0.2 < slope ∧ slope < 0.38 then
      .error nameErrorClassy
    else if 0.01 < pc4 ∧ pc4 < 0.14 ∧ -0.75 < pc1 ∧ pc1 < -0.27 then
      match listHead spec.refl with
      | .error e => .error e
      | .ok refl0 =>
        if refl0 < 0.92 then
          match listHead spec.wave with
          | .error e => .error e
          | .ok wave0 =>
            if wave0 ≠ 0.45 then
              .ok { spec with class_demeo := some "", log := spec.log ++ ["First wavelength bin has to be at 0.45mu in DeMeo classification."] }
            else
              .error nameErrorClassy
        else
          .error nameErrorClassy
    else if -0.04 < pc4 ∧ pc4 < 0.02 ∧ -0.07 < pc5 ∧ pc5 < -0.04 then
      .ok { spec with class_demeo := some "Cb" }
    else if -0.85 < pc1 ∧ pc1 < -0.45 ∧ -0.06 < pc5 ∧ pc5 < -0.02 then
      .error nameErrorClassy
    else if 0.02 ≤ pc5 ∧ pc5 < 0.1 ∧ -0.6 < pc1 ∧ pc1 < -0.16 then
      .error nameErrorClassy
    else if -0.45 ≤ pc1 ∧ pc1 < 0.1 ∧ -0.06 < pc5 ∧ pc5 < 0.05 then
      .error nameErrorClassy
    else if -0.1 ≤ pc1 ∧ pc1 < 0.3 ∧ -0.5 < pc2 ∧ pc2 < -0.2 then
      .error nameErrorClassy
    else
      .error nameErrorClassy

/-- Lines 147-197 of `demeo.py`: Vis-IR steps 2 and 3 of `decision_tree`,
operating on the principal components and slope unpacked at the top of
the function.  Step 2 (above the `alpha` line) resolves V/Vw, O, Q/Qw, R
— branches without logging — or delegates to `demeo_s_complex`.  In step
3 the `T` branch (lines 179-181) assigns and returns without logging,
while the `D` (line 173), `L` (line 184) and `K` (line 191) branches
assign their class and then call `classy.logging.logger.warning` with
`classy` unbound, raising `NameError` after the assignment; otherwise the
step delegates to `demeo_c_and_x_complexes`. -/
def demeoStep23 (spec : DemeoSpec) (pc1 pc2 pc3 slope : ℚ) : Except String DemeoSpec :=
  if pc1 > alpha pc2 then
    if pc1 ≥ gamma pc2 then
      if slope ≥ 0.25 then .ok { spec with class_demeo := some "Vw" }
      else .ok { spec with class_demeo := some "V" }
    else if pc1 ≤ eta pc2 ∧ pc1 ≥ theta pc2 ∧ pc1 < delta pc2 then
      .ok { spec with class_demeo := some "O" }
    else if pc1 ≤ eta pc2 ∧ pc1 ≥ alpha pc2 ∧ pc1 < theta pc2 then
      if slope ≥ 0.25 then .ok { spec with class_demeo := some "Qw" }
      else .ok { spec with class_demeo := some "Q" }
    else if pc1 ≥ eta pc2 ∧ pc1 ≥ gamma pc2 ∧ pc1 < delta pc2 then
      .ok { spec with class_demeo := some "R" }
    else demeo_s_complex spec
  else if 0.38 ≤ slope ∧ slope < 1.5 ∧ -0.44 < pc1 ∧ pc1 < 0.4 then
    .error nameErrorClassy
  else if 0.25 < slope ∧ slope < 0.38 ∧ -0.28 < pc2 ∧ pc2 < -0.2 ∧ -0.2 < pc3 ∧ pc3 < -0.12 then
    .ok { spec with class_demeo := some "T" }
  else if 0.07 < pc1 ∧ pc1 < 1.0 ∧ -0.5 < pc2 ∧ pc2 < -0.15 then
    .error nameErrorClassy
  else if -0.075 < pc3 ∧ pc3 < 0.14 ∧ -0.2 ≤ pc2 ∧ pc2 < -0.1 ∧ -0.8 < pc1 ∧ pc1 < -0.1 then
    .error nameErrorClassy
  else demeo_c_and_x_complexes spec

/-- Lines 134-145 of `demeo.py`: Vis-IR step 1 of `decision_tree`.  The
indeterminate sub-branch (guard true but slope in neither resolving
range) calls `classy.logging.logger.warning` at line 142 with `classy`
unbound, so it raises `NameError` before the assignment
`spec.class_demeo = ""` at line 145 executes; the fall-through to step 2
that the missing `return` would otherwise cause is unreachable. -/
def demeoTier1 (spec : DemeoSpec) (pc1 pc2 pc3 slope : ℚ) : Except String DemeoSpec :=
  if pc1 < -0.3 ∧ pc2 ≥ 0.2 ∧ slope ≥ 0.4 then
    if 0.55 ≤ slope ∧ slope < 1.5 then .ok { spec with class_demeo := some "A" }
    else if 0.4 ≤ slope ∧ slope < 0.55 then .ok { spec with class_demeo := some "Sa" }
    else .error nameErrorClassy
  else demeoStep23 spec pc1 pc2 pc3 slope

/-- Lines 112-197 of `demeo.py`: `decision_tree`.  It unpacks
`spec.scores_demeo[:4]` into four components (raising if fewer than four
are present) and reads `spec.slope[0]`, then runs the three Vis-IR steps.
A path that reaches a `classy.logging` call raises `NameError` there; a
path that returns executes a bare `return`, so its Python return value is
`None` and the mutated spectrum state is the result modelled here. -/
def decision_tree (spec : DemeoSpec) : Except String DemeoSpec :=
  match spec.scores_demeo.take 4 with
  | [pc1, pc2, pc3, _pc4] =>
    match spec.slope.head? with
    | some slope => demeoTier1 spec pc1 pc2 pc3 slope
    | none => .error "IndexError"
  | _ => .error "ValueError: not enough values to unpack"

/-- Elementwise difference of two numpy 1-D arrays: shapes must agree,
otherwise the operation raises a broadcast error. -/
def subLists (xs ys : List ℚ) : Except String (List ℚ) :=
  if xs.length = ys.length then
    .ok ((xs.zip ys).map (fun p => p.1 - p.2))
  else .error "ValueError: operands could not be broadcast together"

/-- The `ValueError` message raised by `classify` when the wavelength bins
mismatch. -/
def demeoWaveError (n : String) : String :=
  "ValueError: [" ++ n ++ "]: The wavelength bins do not match the DeMeo+ 2009 sampling."

/-- Lines 89-97 of `demeo.py`: the preprocessing gate of `classify`.  A
preprocessed spectrum passes through unchanged.  When
`is_preprocessed_demeo` is false the warning at line 90 executes
(`logger` is imported from `classy.log`), and the test
`if spec.wave != WAVE` is then evaluated with numpy array semantics:
when the wave length is broadcast-compatible with the 41-point grid
(length 41 or length 1) the comparison yields a boolean array of more
than one element whose use as a truth value raises the ambiguous-truth
`ValueError` — even when every wavelength matches — and for any other
length the elementwise comparison is impossible, `!=` evaluates to the
scalar `True`, and the intended wavelength-bins `ValueError` of line 95
is raised.  Either way a not-preprocessed spectrum raises, so the state
carrying the logged warning never survives to a result. -/
def demeoGate (spec : DemeoSpec) : Except String DemeoSpec :=
  if spec.is_preprocessed_demeo then .ok spec
  else if spec.wave.length = WAVE.length ∨ spec.wave.length = 1 then
    .error ambiguousTruthMsg
  else .error (demeoWaveError spec.name)

/-- Lines 72-109 of `demeo.py`: `classify`.  After the gate, line 100 drops
index 2 of `refl` (`np.concatenate([spec.refl[:2], spec.refl[3:]])`);
line 101 calls `breakpoint()`, which suspends execution into the
interactive debugger when one is attached and binds or mutates nothing,
modelled as a no-op; line 102 subtracts `DATA_MEAN` elementwise (a
broadcast error unless the dropped-index vector has 40 entries); and
line 105 evaluates `EIGENVECTORS @ data.T` — the name `data` is never
bound in `demeo.py` — so every call that reaches it raises `NameError`
before `scores_demeo` is assigned.  Consequently `classify` assigns
neither `scores_demeo` nor `class_demeo` and never reaches its
`decision_tree` call at line 108. -/
def classify (spec : DemeoSpec) : Except String DemeoSpec :=
  match demeoGate spec with
  | .error e => .error e
  | .ok spec =>
    match subLists (spec.refl.take 2 ++ spec.refl.drop 3) DATA_MEAN with
    | .error e => .error e
    | .ok _refl => .error nameErrorData

/-- The class recorded in the result of a tree computation, for stating
theorems about which class a (sub)tree assigns. -/
def classOf (r : Except String DemeoSpec) : Except String (Option String) :=
  r.map (fun u => u.class_demeo)

end DeMeo

namespace Mahlke

/-- The fields of a `classy.Spectrum` read by the wavelength-coverage gate of
`mahlke.classify`; `is_preprocessed_mahlke` is carried to record that
`classify` never consults it. -/
structure MahlkeSpec where
  wave : List ℚ
  is_preprocessed_mahlke : Bool
  name : String

/-- Where a non-raising run of `mahlke.classify` ends up in the modelled
region: execution reaches `model = data.load("mcfa")`, the mixture-model
inference path (`classy.data` is imported in `mahlke.py`, so the call is
real). -/
inductive MahlkeOutcome where
  | modelInvoked
deriving DecidableEq

/-- The `NameError` raised at line 19 of `mahlke.py`: the gate branch calls
`logger.info`, and `mahlke.py` never binds `logger` (its imports are
numpy, pandas, `classy.data`, `classy.defs` and `classy.decision_tree`). -/
def nameErrorLogger : String := "NameError: name logger is not defined"

/-- Lines 17-26 of `mahlke.py`: `classify` up to its first statement that
depends on the fitted mixture model.  The gate is
`spec.wave.min() >= 2.45 or spec.wave.max() <= 0.45`; when it fires, the
`logger.info` call at line 19 raises `NameError` (`logger` is unbound in
`mahlke.py`) before `spec.class_mahlke = ""` at line 22 executes.  When
it does not fire, `data.load("mcfa")` is executed.  (`np.min`/`np.max`
raise on an empty array.) -/
def classify (spec : MahlkeSpec) : Except String MahlkeOutcome :=
  match spec.wave.min?, spec.wave.max? with
  | some mn, some mx =>
    if mn ≥ 2.45 ∨ mx ≤ 0.45 then .error nameErrorLogger else .ok .modelInvoked
  | _, _ => .error "ValueError: zero-size array reduction"

/-- Written from the words of the spec, for comparison with the gate above: the
spec requires the wavelength range to cover the full interval
[0.45, 2.45] μm ("mandatory full-range requirement"). -/
def spec_covers_required_range (wave : List ℚ) : Prop :=
  match wave.min?, wave.max? with
  | some mn, some mx => mn ≤ 0.45 ∧ 2.45 ≤ mx
  | _, _ => False

end Mahlke

/-! Concrete specimen spectra and reference tables used to evaluate the
embedded classifiers on explicit inputs. -/

/-- A DeMeo spectrum state with the given scores, slope and per-component
attributes; the remaining fields are fixed neutral values. -/
def mkDemeo (scores slope : List ℚ) (p0 p1 p2 p3 p4 : Option ℚ) : DeMeo.DemeoSpec :=
  { wave := [], refl := [], slope := slope, is_preprocessed_demeo := true,
    scores_demeo := scores, pc0_demeo := p0, pc1_demeo := p1, pc2_demeo := p2,
    pc3_demeo := p3, pc4_demeo := p4, class_demeo := none, name := "t", log := [] }

/-- A DeMeo spectrum state that is not preprocessed and has an empty (hence
non-broadcastable) wavelength grid. -/
def c7ds : DeMeo.DemeoSpec :=
  { wave := [], refl := [], slope := [], is_preprocessed_demeo := false,
    scores_demeo := [], pc0_demeo := none, pc1_demeo := none, pc2_demeo := none,
    pc3_demeo := none, pc4_demeo := none, class_demeo := none, name := "t7d", log := [] }

/-- Reference table with a single row of class `"E"` at the origin. -/
def c3tbl : List Tholen.EcasRow := [⟨[0, 0, 0, 0, 0, 0, 0], "E"⟩]

/-- Tholen spectrum at the origin with NaN albedo. -/
def c3sX : Tholen.TholenSpec := ⟨[0, 0, 0, 0, 0, 0, 0], none, true, "t3"⟩

/-- Tholen spectrum at the origin with `-2.5 log10(pV) = 3.5`. -/
def c3sP : Tholen.TholenSpec := ⟨[0, 0, 0, 0, 0, 0, 0], some 3.5, true, "t3"⟩

/-- Tholen spectrum at the origin with `-2.5 log10(pV) = 2.0`. -/
def c3sM : Tholen.TholenSpec := ⟨[0, 0, 0, 0, 0, 0, 0], some 2.0, true, "t3"⟩

/-- Tholen spectrum at the origin with `-2.5 log10(pV) = 1.0`. -/
def c3sE : Tholen.TholenSpec := ⟨[0, 0, 0, 0, 0, 0, 0], some 1.0, true, "t3"⟩

/-- Reference table with a single row of class `"C"` at the origin. -/
def c9tblC : List Tholen.EcasRow := [⟨[0, 0, 0, 0, 0, 0, 0], "C"⟩]

/-- Reference table with a single row of class `"F"` at the origin. -/
def c9tblF : List Tholen.EcasRow := [⟨[0, 0, 0, 0, 0, 0, 0], "F"⟩]

/-- Tholen spectrum at the origin with NaN albedo. -/
def c9spec : Tholen.TholenSpec := ⟨[0, 0, 0, 0, 0, 0, 0], none, true, "t9"⟩

/-- Two-row reference table whose second row sits at the origin. -/
def c4tbl : List Tholen.EcasRow :=
  [⟨[1, 2, 3, 4, 5, 6, 7], "S"⟩, ⟨[0, 0, 0, 0, 0, 0, 0], "B"⟩]

/-- Tholen spectrum at the origin used to evaluate the staged code for the
nearest-neighbour claim. -/
def c4spec : Tholen.TholenSpec := ⟨[0, 0, 0, 0, 0, 0, 0], none, true, "t4"⟩

/-- Input that satisfies the Tier-1 guard with a slope in neither resolving
range, entering the indeterminate branch. -/
def c2qwSpec : DeMeo.DemeoSpec := mkDemeo [-0.5, 0.2, 0, 0] [1.5] none none none none none

/-- Input reaching the S-complex fallback (no sub-branch guard holds). -/
def c2sSpec : DeMeo.DemeoSpec :=
  mkDemeo [] [0] (some 0) (some 0) (some 0) (some 0) (some 0)

/-- Input in the V-region of Vis-IR step 2 with slope above 0.25. -/
def c6vSpec : DeMeo.DemeoSpec := mkDemeo [0.5, 0.2, 0, 0] [0.3] none none none none none

/-- Input in the Sq-region of the S-complex subtree with slope below 0.25. -/
def c6sqSpec : DeMeo.DemeoSpec :=
  mkDemeo [] [0.1] (some (-0.2)) (some 0) (some 0) (some 0) (some 0)

/-- Input with absent `pc*_demeo` attributes whose scores and slope land in
the T branch of Vis-IR step 3 (a direct branch without logging). -/
def c10spec : DeMeo.DemeoSpec := mkDemeo [0, -0.25, -0.15, 0] [0.3] none none none none none

/-- The state `decision_tree` produces on `c10spec`. -/
def c10out : DeMeo.DemeoSpec := { c10spec with class_demeo := some "T" }

/-- A 41-point reflectance vector equal to the DeMeo data mean with an extra
value interposed at the dropped index 2: demeaning maps it to the zero
vector. -/
def c8refl : List ℚ := DeMeo.DATA_MEAN.take 2 ++ [1] ++ DeMeo.DATA_MEAN.drop 2

/-- A preprocessed DeMeo spectrum state on which `classify` passes the gate
and the demeaning, reaching line 105 where it raises. -/
def c8ds : DeMeo.DemeoSpec :=
  { wave := [], refl := c8refl, slope := [0], is_preprocessed_demeo := true,
    scores_demeo := [], pc0_demeo := some 0, pc1_demeo := some 0, pc2_demeo := some 0,
    pc3_demeo := some 0, pc4_demeo := some 0, class_demeo := none, name := "t8", log := [] }

/-! Helper lemmas shared across the claim theorems. -/

/-- The DeMeo grid count: `ceil((2.5 - 0.45) / 0.05) = 41`. -/
theorem waveCount : (⌈(((2.5 : ℚ) - 0.45) / 0.05)⌉).toNat = 41 := by
  have h : (⌈(((2.5 : ℚ) - 0.45) / 0.05)⌉) = 41 := by norm_num
  rw [h]
  rfl

/-- Closed form of the DeMeo wavelength grid. -/
theorem waveEq :
    DeMeo.WAVE = (List.range 41).map (fun k : ℕ => (0.45 : ℚ) + (k : ℚ) * 0.05) := by
  rw [DeMeo.WAVE, npArange, waveCount]

/-- The DeMeo wavelength grid has 41 points. -/
theorem waveLen : DeMeo.WAVE.length = 41 := by
  rw [waveEq]
  simp only [List.length_map, List.length_range]

/-- Counterexample for C5: the DeMeo resampling grid produced by
`np.arange(0.45, 2.5, 0.05)` has 41 points, not 40, and the published data
mean has 40 entries, not 39. -/
theorem c5_counterexample : DeMeo.WAVE.length ≠ 40 ∧ DeMeo.DATA_MEAN.length ≠ 39 := by
  rw [waveLen]
  exact ⟨by norm_num, by rw [show DeMeo.DATA_MEAN.length = 40 from rfl]; norm_num⟩

/-- C5 (amended): the DeMeo grid is the 41-point grid `0.45 + k * 0.05`,
`k = 0 .. 40`, running from 0.45 to 2.45 μm (`np.arange` excludes the
2.50 stop); classification drops index 2 (the grid point at 0.55 μm, the
normalization wavelength) from the 41-point reflectance vector, yielding
40 elements; the published data mean has 40 elements and each of the five
eigenvector rows has 40 entries. -/
theorem c5_amended :
    DeMeo.WAVE = (List.range 41).map (fun k : ℕ => (0.45 : ℚ) + (k : ℚ) * 0.05)
    ∧ DeMeo.WAVE.length = 41
    ∧ DeMeo.WAVE[0]? = some (0.45 : ℚ)
    ∧ DeMeo.WAVE[2]? = some (0.55 : ℚ)
    ∧ DeMeo.WAVE[40]? = some (2.45 : ℚ)
    ∧ (DeMeo.WAVE.take 2 ++ DeMeo.WAVE.drop 3).length = 40
    ∧ DeMeo.DATA_MEAN.length = 40
    ∧ DeMeo.EIGENVECTORS.map List.length = [40, 40, 40, 40, 40] := by
  refine ⟨waveEq, waveLen, ?_, ?_, ?_, ?_, rfl, rfl⟩
  · rw [waveEq]
    simp only [List.getElem?_map, List.getElem?_range]
    norm_num
  · rw [waveEq]
    simp only [List.getElem?_map, List.getElem?_range]
    norm_num
  · rw [waveEq]
    simp only [List.getElem?_map, List.getElem?_range]
    norm_num
  · simp only [List.length_append, List.length_take, List.length_drop, waveLen]
    norm_num

/-- Counterexample for C1: a spectrum with `wave = [0.5, 1.0]` μm does not
cover the Mahlke grid, yet `mahlke.classify` passes its gate and reaches
the mixture model instead of returning the empty class. -/
theorem c1_counterexample :
    Mahlke.classify ⟨[0.5, 1.0], true, "m1"⟩ = .ok .modelInvoked
    ∧ ¬ Mahlke.spec_covers_required_range [0.5, 1.0] := by
  constructor
  · rw [Mahlke.classify]
    norm_num [List.min?, List.max?]
  · rw [Mahlke.spec_covers_required_range]
    norm_num [List.min?, List.max?]

/-- C1 (amended): `mahlke.classify` never returns the empty class.  Its gate
tests `wave.min() >= 2.45 or wave.max() <= 0.45` — no overlap at all with
[0.45, 2.45] μm, not full coverage — and when the gate fires, line 19
calls `logger.info` with `logger` unbound in `mahlke.py`, raising
`NameError` before `class_mahlke` is assigned; any overlapping spectrum —
covering the grid or not — proceeds to the mixture model. -/
theorem c1_amended (s : Mahlke.MahlkeSpec) (mn mx : ℚ)
    (hmn : s.wave.min? = some mn) (hmx : s.wave.max? = some mx) :
    (Mahlke.classify s = .error Mahlke.nameErrorLogger ↔ (mn ≥ 2.45 ∨ mx ≤ 0.45))
    ∧ (Mahlke.classify s = .ok .modelInvoked ↔ ¬(mn ≥ 2.45 ∨ mx ≤ 0.45)) := by
  unfold Mahlke.classify
  rw [hmn, hmx]
  by_cases h : (mn ≥ 2.45 ∨ mx ≤ 0.45) <;> simp [h]

/-- Witness for the amended C1 theorem at a concrete no-overlap input. -/
theorem c1_witness :
    Mahlke.classify ⟨[2.5, 3], true, "m2"⟩ = .error Mahlke.nameErrorLogger := by
  refine (c1_amended ⟨[2.5, 3], true, "m2"⟩ 2.5 3 ?_ ?_).1.mpr (by norm_num)
  · show List.min? [(2.5 : ℚ), 3] = some 2.5
    norm_num [List.min?]
  · show List.max? [(2.5 : ℚ), 3] = some 3
    norm_num [List.max?]

/-- Squared distances are nonnegative. -/
theorem sqDist_nonneg (xs ys : List ℚ) : 0 ≤ Tholen.sqDist xs ys := by
  induction xs generalizing ys with
  | nil => cases ys <;> simp [Tholen.sqDist]
  | cons x xs ih =>
    cases ys with
    | nil => simp [Tholen.sqDist]
    | cons y ys =>
      simp only [Tholen.sqDist]
      exact add_nonneg (sq_nonneg _) (ih ys)

/-- A vector is at squared distance zero from itself. -/
theorem sqDist_self (xs : List ℚ) : Tholen.sqDist xs xs = 0 := by
  induction xs with
  | nil => simp [Tholen.sqDist]
  | cons x xs ih => simp [Tholen.sqDist, ih]

/-- Equal-length vectors at squared distance zero are equal. -/
theorem sqDist_eq_zero {xs ys : List ℚ} (hlen : xs.length = ys.length)
    (h : Tholen.sqDist xs ys = 0) : xs = ys := by
  induction xs generalizing ys with
  | nil =>
    cases ys with
    | nil => rfl
    | cons y ys => simp at hlen
  | cons x xs ih =>
    cases ys with
    | nil => simp at hlen
    | cons y ys =>
      simp only [Tholen.sqDist] at h
      have hs := sqDist_nonneg xs ys
      have hq := sq_nonneg (x - y)
      have h2 : Tholen.sqDist xs ys = 0 := by linarith
      have h3 : (x - y) ^ 2 = 0 := by linarith
      have hx : x = y := by
        have := pow_eq_zero_iff (two_ne_zero) |>.mp h3
        linarith
      have ht : xs = ys := ih (by simpa using hlen) h2
      rw [hx, ht]

/-- Distinct equal-length vectors are at positive squared distance. -/
theorem sqDist_pos {xs ys : List ℚ} (hlen : xs.length = ys.length) (hne : xs ≠ ys) :
    0 < Tholen.sqDist xs ys :=
  lt_of_le_of_ne (sqDist_nonneg xs ys) (fun h => hne (sqDist_eq_zero hlen h.symm))

/-- The embedded `np.argmin` returns `i` whenever entry `i` is a minimum
and every earlier entry is strictly larger. -/
theorem argminFirst_eq {l : List ℚ} {i : ℕ} (hi : i < l.length)
    (hle : ∀ b ∈ l, l[i] ≤ b)
    (hlt : ∀ (j : ℕ) (hj : j < l.length), j < i → l[i] < l[j]) :
    Tholen.argminFirst l = i := by
  have hmem : l[i] ∈ l := List.getElem_mem hi
  haveI : Std.Antisymm ((· ≤ ·) : ℚ → ℚ → Prop) := ⟨fun h1 h2 => le_antisymm h1 h2⟩
  have hmin : l.min? = some l[i] := by
    rw [List.min?_eq_some_iff (fun a => le_refl a) (fun a b => min_choice a b)
      (fun a b c => le_min_iff)]
    exact ⟨hmem, hle⟩
  have harg : Tholen.argminFirst l = l.findIdx (fun x => decide (x = l[i])) := by
    unfold Tholen.argminFirst
    rw [hmin]
  rw [harg, List.findIdx_eq hi]
  refine ⟨by simp, ?_⟩
  intro j hj
  have hjl : j < l.length := lt_trans hj hi
  have hgt := hlt j hjl hj
  simp only [decide_eq_false_iff_not]
  exact ne_of_gt hgt

/-- The single-row origin tables assign the origin spectrum the coarse class
of their row (intended model). -/
theorem coarse_origin (cls : String) :
    Tholen.tholenCoarseIntended [⟨[0, 0, 0, 0, 0, 0, 0], cls⟩]
      ([0, 0, 0, 0, 0, 0, 0] : List ℚ) = .ok cls := by
  norm_num [Tholen.tholenCoarseIntended, Tholen.sqDist, Tholen.argminFirst, List.min?,
    List.findIdx, List.findIdx.go]

/-- C3 (code bug): the staged `tholen.py` cannot execute its albedo cascade —
importing the module raises `TypeError` (the `functools.cache` import is
shadowed by the `classy.cache` module before the decorator at line 33)
and `np` is unbound inside the cascade — so a spectrum with coarse class
`"E"` and NaN albedo makes the classification error instead of returning
`"X"`; under the intended semantics with the import slips repaired, the
cascade is exactly as claimed: NaN gives `"X"`, `-2.5 log10 pV > 3` gives
`"P"`, above 1.4 but not 3 gives `"M"`, and otherwise `"E"`. -/
theorem c3_tholen_albedo_empx :
    Tholen.decision_tree c3sX = .error Tholen.tholenImportError
    ∧ (∀ (table : List Tholen.EcasRow) (s : Tholen.TholenSpec) (c : String),
      Tholen.tholenCoarseIntended table s.tholen_scores = .ok c →
      c ∈ (["E", "M", "P", "X"] : List String) →
      (s.pVm = none → Tholen.decision_treeIntended table s = .ok "X")
      ∧ (∀ v : ℚ, s.pVm = some v → v > 3 → Tholen.decision_treeIntended table s = .ok "P")
      ∧ (∀ v : ℚ, s.pVm = some v → ¬(v > 3) → v > 1.4 →
          Tholen.decision_treeIntended table s = .ok "M")
      ∧ (∀ v : ℚ, s.pVm = some v → ¬(v > 1.4) →
          Tholen.decision_treeIntended table s = .ok "E")) := by
  refine ⟨rfl, ?_⟩
  intro table s c hc hmem
  have htree : Tholen.decision_treeIntended table s =
      .ok (Tholen.tholenAlbedoIntended (Tholen.truncateAmbiguous c) s.pVm) := by
    unfold Tholen.decision_treeIntended
    rw [hc]
  fin_cases hmem
  all_goals refine ⟨?_, ?_, ?_, ?_⟩
  all_goals simp only [Tholen.truncateAmbiguous] at htree
  all_goals rw [if_neg (by decide)] at htree
  all_goals
    first
    | (intro hv
       rw [htree, hv]
       rfl)
    | (intro v hv h3
       rw [htree, hv]
       simp only [Tholen.tholenAlbedoIntended]
       rw [if_pos (by simp)]
       simp [nanGT, h3]
       done)
    | (intro v hv h3 h14
       rw [htree, hv]
       simp only [Tholen.tholenAlbedoIntended]
       rw [if_pos (by simp)]
       simp [nanGT, h3, h14]
       done)
    | (intro v hv h14
       have h3 : ¬ v > 3 := fun h => h14 (by linarith)
       rw [htree, hv]
       simp only [Tholen.tholenAlbedoIntended]
       rw [if_pos (by simp)]
       simp [nanGT, h3, h14]
       done)

/-- Witness for C3 at the example values 3.5, 2.0, 1.0 and NaN from the spec
(intended model). -/
theorem c3_witness :
    Tholen.decision_treeIntended c3tbl c3sX = .ok "X"
    ∧ Tholen.decision_treeIntended c3tbl c3sP = .ok "P"
    ∧ Tholen.decision_treeIntended c3tbl c3sM = .ok "M"
    ∧ Tholen.decision_treeIntended c3tbl c3sE = .ok "E" := by
  refine ⟨(c3_tholen_albedo_empx.2 c3tbl c3sX "E" (coarse_origin "E") (by simp)).1 rfl,
    (c3_tholen_albedo_empx.2 c3tbl c3sP "E" (coarse_origin "E") (by simp)).2.1 3.5 rfl
      (by norm_num),
    (c3_tholen_albedo_empx.2 c3tbl c3sM "E" (coarse_origin "E") (by simp)).2.2.1 2.0 rfl
      (by norm_num) (by norm_num),
    (c3_tholen_albedo_empx.2 c3tbl c3sE "E" (coarse_origin "E") (by simp)).2.2.2 1.0 rfl
      (by norm_num)⟩

/-- C4 (code bug): the staged `tholen.py` never computes a nearest
neighbour — the module fails to load with `TypeError` (its
`functools.cache` name is shadowed), and lines 71-75 use the unbound name
`np` — so a spectrum whose scores equal a table row errors instead of
receiving that class; under the intended semantics with the slips
repaired, the coarse class is that of the nearest
reference row in the full 7-dimensional PC space, ties broken by first
occurrence in table order: a spectrum whose scores exactly equal the
scores of row `i` (with no earlier row at the same point) receives the
class of row `i`. -/
theorem c4_nearest_neighbor :
    Tholen.decision_tree c4spec = .error Tholen.tholenImportError
    ∧ (∀ (table : List Tholen.EcasRow) (scores : List ℚ) (i : ℕ) (row : Tholen.EcasRow),
      table[i]? = some row → row.scores = scores → scores.length = 7 →
      (∀ r ∈ table, r.scores.length = 7) →
      (∀ j : ℕ, j < i → ∀ r : Tholen.EcasRow, table[j]? = some r → r.scores ≠ scores) →
      Tholen.tholenCoarseIntended table scores = .ok row.class_) := by
  refine ⟨rfl, ?_⟩
  intro table scores i row hrow hscores hlen hlenAll hfirst
  obtain ⟨hi, hgi⟩ := List.getElem?_eq_some_iff.mp hrow
  have hdi : i < (table.map (fun r => Tholen.sqDist scores r.scores)).length := by
    rw [List.length_map]
    exact hi
  have hdival : (table.map (fun r => Tholen.sqDist scores r.scores))[i] = 0 := by
    rw [List.getElem_map, hgi, hscores, sqDist_self]
  have hle : ∀ b ∈ table.map (fun r => Tholen.sqDist scores r.scores),
      (table.map (fun r => Tholen.sqDist scores r.scores))[i] ≤ b := by
    intro b hb
    rw [hdival]
    obtain ⟨r, _, rfl⟩ := List.mem_map.mp hb
    exact sqDist_nonneg _ _
  have hlt : ∀ (j : ℕ) (hj : j < (table.map (fun r => Tholen.sqDist scores r.scores)).length),
      j < i → (table.map (fun r => Tholen.sqDist scores r.scores))[i] <
        (table.map (fun r => Tholen.sqDist scores r.scores))[j] := by
    intro j hj hji
    rw [hdival, List.getElem_map]
    have hjt : j < table.length := by
      rw [List.length_map] at hj
      exact hj
    apply sqDist_pos
    · rw [hlen, hlenAll table[j] (List.getElem_mem hjt)]
    · have hne := hfirst j hji table[j] (List.getElem?_eq_some_iff.mpr ⟨hjt, rfl⟩)
      exact fun hEq => hne hEq.symm
  have harg := argminFirst_eq hdi hle hlt
  unfold Tholen.tholenCoarseIntended
  rw [harg, hrow]

/-- Witness for C4: in a two-row table whose second row sits at the origin,
the intended model gives a spectrum at the origin the class `"B"` of the
second row. -/
theorem c4_witness : Tholen.tholenCoarseIntended c4tbl [0, 0, 0, 0, 0, 0, 0] = .ok "B" := by
  have h := c4_nearest_neighbor.2 c4tbl [0, 0, 0, 0, 0, 0, 0] 1 ⟨[0, 0, 0, 0, 0, 0, 0], "B"⟩
    rfl rfl rfl ?_ ?_
  · exact h
  · intro r hr
    fin_cases hr <;> rfl
  · intro j hj r hr
    interval_cases j
    rw [show c4tbl[0]? = some (⟨[1, 2, 3, 4, 5, 6, 7], "S"⟩ : Tholen.EcasRow) from rfl] at hr
    injection hr with hr
    subst hr
    intro hEq
    simp only [List.cons.injEq] at hEq
    norm_num at hEq

/-- C9 (code bug): the staged `tholen.py` cannot evaluate the albedo
comparisons — the module fails to import with `TypeError`, and the
comparisons at lines 92 and 96 call the unbound `np.log10` — so a coarse
`"C"` spectrum with NaN albedo errors instead of returning `"B"`; under
the intended semantics with the import slips repaired, every comparison
against NaN is false, a coarse `"C"` or `"B"` falls through to the final
`"B"` branch and a coarse `"F"` or `"G"` passes through unchanged. -/
theorem c9_tholen_nan :
    Tholen.decision_tree c9spec = .error Tholen.tholenImportError
    ∧ (∀ (table : List Tholen.EcasRow) (s : Tholen.TholenSpec) (c : String),
      Tholen.tholenCoarseIntended table s.tholen_scores = .ok c → s.pVm = none →
      (c ∈ (["C", "B"] : List String) → Tholen.decision_treeIntended table s = .ok "B")
      ∧ (c ∈ (["F", "G"] : List String) → Tholen.decision_treeIntended table s = .ok c)) := by
  refine ⟨rfl, ?_⟩
  intro table s c hc hnan
  have htree : Tholen.decision_treeIntended table s =
      .ok (Tholen.tholenAlbedoIntended (Tholen.truncateAmbiguous c) s.pVm) := by
    unfold Tholen.decision_treeIntended
    rw [hc]
  constructor
  · intro hmem
    fin_cases hmem <;> (rw [htree, hnan]; rfl)
  · intro hmem
    fin_cases hmem <;> (rw [htree, hnan]; rfl)

/-- Witness for C9: in the intended model NaN albedo sends a coarse "C" to
"B" and leaves a coarse "F" unchanged. -/
theorem c9_witness :
    Tholen.decision_treeIntended c9tblC c9spec = .ok "B"
    ∧ Tholen.decision_treeIntended c9tblF c9spec = .ok "F" := by
  refine ⟨(c9_tholen_nan.2 c9tblC c9spec "C" (coarse_origin "C") rfl).1 (by simp),
    (c9_tholen_nan.2 c9tblF c9spec "F" (coarse_origin "F") rfl).2 (by simp)⟩

/-- With the preprocessing flag false the DeMeo gate always raises: the
numpy comparison of the wave array against the 41-point grid either
yields a boolean array (ambiguous truth value) or, for non-broadcastable
lengths, the scalar True that triggers the wavelength-bins ValueError. -/
theorem demeoGate_notpre (s : DeMeo.DemeoSpec) (h1 : s.is_preprocessed_demeo = false) :
    ∃ e, DeMeo.demeoGate s = .error e := by
  unfold DeMeo.demeoGate
  rw [h1]
  by_cases hlen : (s.wave.length = DeMeo.WAVE.length ∨ s.wave.length = 1)
  · exact ⟨DeMeo.ambiguousTruthMsg, by simp [hlen]⟩
  · exact ⟨DeMeo.demeoWaveError s.name, by simp [hlen]⟩

/-- Every call of `demeo.classify` raises: a failing gate propagates its
error, and past the gate either the demeaning broadcast fails or line 105
references the unbound name `data`. -/
theorem demeoClassify_always_errors (s : DeMeo.DemeoSpec) :
    ∃ e, DeMeo.classify s = .error e := by
  cases hg : DeMeo.demeoGate s with
  | error e => exact ⟨e, by simp only [DeMeo.classify, hg]⟩
  | ok g =>
    cases hr : DeMeo.subLists (g.refl.take 2 ++ g.refl.drop 3) DeMeo.DATA_MEAN with
    | error e => exact ⟨e, by simp only [DeMeo.classify, hg, hr]⟩
    | ok r => exact ⟨DeMeo.nameErrorData, by simp only [DeMeo.classify, hg, hr]⟩

/-- Counterexample for C7: a not-preprocessed spectrum with overlapping
wavelength coverage passes through `mahlke.classify` with no error and
reaches the mixture model: the preprocessing flag is never consulted and
no gate violation is reported. -/
theorem c7_counterexample :
    (⟨[0.6, 1.2], false, "m7"⟩ : Mahlke.MahlkeSpec).is_preprocessed_mahlke = false
    ∧ Mahlke.classify ⟨[0.6, 1.2], false, "m7"⟩ = .ok .modelInvoked := by
  refine ⟨rfl, ?_⟩
  rw [Mahlke.classify]
  norm_num [List.min?, List.max?]

/-- C7 (amended): no classifier implements the claimed gate-as-error
contract.  `mahlke.classify` never reads `is_preprocessed_mahlke`, and a
not-preprocessed spectrum with overlapping wavelengths proceeds to the
mixture model with no error; `demeo.classify` reads its flag only to log
a warning, after which the numpy comparison `spec.wave != WAVE` itself
raises — the ambiguous-truth `ValueError` for broadcast-compatible
lengths, even when every wavelength matches, and the wavelength-bins
`ValueError` otherwise — so a not-preprocessed DeMeo call always errors
without classifying; and the staged `tholen.py` cannot be imported, so
its decision tree errors for preprocessed and not-preprocessed spectra
alike, its body containing no flag check at all. -/
theorem c7_amended :
    (∀ (s : Mahlke.MahlkeSpec) (b : Bool),
      Mahlke.classify { s with is_preprocessed_mahlke := b } = Mahlke.classify s)
    ∧ (∀ (s : Mahlke.MahlkeSpec) (mn mx : ℚ),
      s.is_preprocessed_mahlke = false → s.wave.min? = some mn → s.wave.max? = some mx →
      ¬(mn ≥ 2.45 ∨ mx ≤ 0.45) → Mahlke.classify s = .ok .modelInvoked)
    ∧ (∀ s : DeMeo.DemeoSpec, s.is_preprocessed_demeo = false →
      ∃ e, DeMeo.classify s = .error e)
    ∧ (∀ s : Tholen.TholenSpec, Tholen.decision_tree s = .error Tholen.tholenImportError) := by
  refine ⟨?_, ?_, ?_, fun s => rfl⟩
  · intro s b
    cases s
    rfl
  · intro s mn mx h1 hmn hmx hg
    unfold Mahlke.classify
    rw [hmn, hmx]
    simp [hg]
  · intro s h1
    obtain ⟨e, he⟩ := demeoGate_notpre s h1
    exact ⟨e, by unfold DeMeo.classify; rw [he]⟩

/-- Witness for the amended C7 theorem: the DeMeo classifier errors on a
concrete not-preprocessed spectrum. -/
theorem c7_witness : ∃ e, DeMeo.classify c7ds = .error e :=
  c7_amended.2.2.1 c7ds rfl

/-- Reading the first absent per-component attribute aborts the S-complex
subtree with `AttributeError`. -/
theorem sComplex_attrError {s : DeMeo.DemeoSpec} (h : s.pc0_demeo = none) :
    DeMeo.demeo_s_complex s = .error "AttributeError" := by
  unfold DeMeo.demeo_s_complex
  rw [h]
  rfl

/-- Reading the first absent per-component attribute aborts the C/X-complex
subtree with `AttributeError`. -/
theorem cx_attrError {s : DeMeo.DemeoSpec} (h : s.pc0_demeo = none) :
    DeMeo.demeo_c_and_x_complexes s = .error "AttributeError" := by
  unfold DeMeo.demeo_c_and_x_complexes
  rw [h]
  rfl

/-- When the per-component attributes are absent, Vis-IR steps 2-3 can only
return through a direct branch without logging, whose class is one of the
nine labels that survive the unbound-name crashes. -/
theorem step23_attrless_class (s u : DeMeo.DemeoSpec) {pc1 pc2 pc3 sl : ℚ}
    (h0 : s.pc0_demeo = none) (h : DeMeo.demeoStep23 s pc1 pc2 pc3 sl = .ok u) :
    u.class_demeo ∈ ([some "A", some "Sa", some "Vw", some "V", some "O", some "Qw",
      some "Q", some "R", some "T"] : List (Option String)) := by
  unfold DeMeo.demeoStep23 at h
  repeat' split at h
  all_goals first
    | (simp at h; done)
    | (rw [sComplex_attrError h0] at h; simp at h; done)
    | (rw [cx_attrError h0] at h; simp at h; done)
    | (injection h with h; subst h; simp)

/-- C10: the S-complex and C/X-complex subtrees read the attributes
`pc0_demeo` .. `pc4_demeo`, which `classify` never assigns (line 105
raises `NameError` at the unbound name `data` while evaluating the
right-hand side of the `scores_demeo` assignment, so `classify` in fact
assigns nothing and never even reaches `decision_tree`); with
`pc0_demeo` absent both subtrees abort with `AttributeError`, no call of
`classify` returns at all, and a direct run of the decision tree can only
return a class through its non-delegating branches. -/
theorem c10_delegation_fails (s : DeMeo.DemeoSpec) (h : s.pc0_demeo = none) :
    DeMeo.demeo_s_complex s = .error "AttributeError"
    ∧ DeMeo.demeo_c_and_x_complexes s = .error "AttributeError"
    ∧ (∀ t : DeMeo.DemeoSpec, DeMeo.classify s ≠ .ok t)
    ∧ (∀ u : DeMeo.DemeoSpec, DeMeo.decision_tree s = .ok u →
        u.class_demeo ∈ ([some "A", some "Sa", some "Vw", some "V", some "O", some "Qw",
          some "Q", some "R", some "T"] : List (Option String))) := by
  refine ⟨sComplex_attrError h, cx_attrError h, ?_, ?_⟩
  · intro t hc
    obtain ⟨e, he⟩ := demeoClassify_always_errors s
    rw [he] at hc
    exact Except.noConfusion hc
  · intro u hu
    unfold DeMeo.decision_tree at hu
    repeat' split at hu
    all_goals first
      | (simp at hu; done)
      | skip
    unfold DeMeo.demeoTier1 at hu
    repeat' split at hu
    all_goals first
      | (simp at hu; done)
      | (injection hu with hu; subst hu; simp; done)
      | (refine step23_attrless_class _ u ?_ hu; exact h)

/-- Witness for C10: on a concrete spectrum with absent attributes the
S-complex subtree raises, while the decision tree in the T region returns
a direct class. -/
theorem c10_witness :
    DeMeo.demeo_s_complex c10spec = .error "AttributeError"
    ∧ c10out.class_demeo ∈ ([some "A", some "Sa", some "Vw", some "V", some "O", some "Qw",
        some "Q", some "R", some "T"] : List (Option String)) := by
  refine ⟨(c10_delegation_fails c10spec rfl).1,
    (c10_delegation_fails c10spec rfl).2.2.2 c10out ?_⟩
  norm_num [c10spec, c10out, mkDemeo, DeMeo.decision_tree, DeMeo.demeoTier1,
    DeMeo.demeoStep23, DeMeo.alpha, DeMeo.beta, DeMeo.gamma, DeMeo.delta,
    DeMeo.epsilon, DeMeo.zeta, DeMeo.eta, DeMeo.theta]

/-- The decision tree reduces to Vis-IR step 1 once the unpacked scores and
the slope are known. -/
theorem tree_eq_tier1 (s : DeMeo.DemeoSpec) (p1 p2 p3 p4 sl : ℚ)
    (ht4 : s.scores_demeo.take 4 = [p1, p2, p3, p4]) (hsl : s.slope.head? = some sl) :
    DeMeo.decision_tree s = DeMeo.demeoTier1 s p1 p2 p3 sl := by
  unfold DeMeo.decision_tree
  rw [ht4, hsl]

/-- When its guard fails, Vis-IR step 1 passes the unchanged state on to
steps 2-3. -/
theorem tier1_skip (s : DeMeo.DemeoSpec) (p1 p2 p3 sl : ℚ)
    (hG : ¬(p1 < -0.3 ∧ p2 ≥ 0.2 ∧ sl ≥ 0.4)) :
    DeMeo.demeoTier1 s p1 p2 p3 sl = DeMeo.demeoStep23 s p1 p2 p3 sl := by
  unfold DeMeo.demeoTier1
  rw [if_neg hG]

/-- In the V-region (`pc1 ≥ gamma(pc2)`) steps 2-3 assign "Vw" iff the slope
is at least 0.25 and "V" otherwise. -/
theorem step23_V {u : DeMeo.DemeoSpec} {p1 p2 p3 sl : ℚ} (hv : p1 ≥ DeMeo.gamma p2) :
    DeMeo.classOf (DeMeo.demeoStep23 u p1 p2 p3 sl) =
      .ok (some (if sl ≥ 0.25 then "Vw" else "V")) := by
  unfold DeMeo.demeoStep23
  have ha : p1 > DeMeo.alpha p2 := by
    unfold DeMeo.gamma at hv
    unfold DeMeo.alpha
    linarith
  rw [if_pos ha, if_pos hv]
  by_cases hsl : sl ≥ 0.25 <;> simp [hsl, DeMeo.classOf, Except.map]

/-- In the Q-region steps 2-3 assign "Qw" iff the slope is at least 0.25 and
"Q" otherwise. -/
theorem step23_Q {u : DeMeo.DemeoSpec} {p1 p2 p3 sl : ℚ}
    (ha : p1 > DeMeo.alpha p2) (hng : ¬(p1 ≥ DeMeo.gamma p2))
    (heta : p1 ≤ DeMeo.eta p2) (hth : p1 < DeMeo.theta p2) :
    DeMeo.classOf (DeMeo.demeoStep23 u p1 p2 p3 sl) =
      .ok (some (if sl ≥ 0.25 then "Qw" else "Q")) := by
  unfold DeMeo.demeoStep23
  rw [if_pos ha, if_neg hng, if_neg (fun hx => absurd hth (not_lt.mpr hx.2.1)),
    if_pos ⟨heta, le_of_lt ha, hth⟩]
  by_cases hsl : sl ≥ 0.25 <;> simp [hsl, DeMeo.classOf, Except.map]

/-- The S/Sw sub-branch guard `pc1 < beta(pc2) and pc1 > delta(pc2)` is
unsatisfiable: `beta` lies strictly below `delta` pointwise. -/
theorem sw_guard_unsat (p1 p2 : ℚ) : ¬(p1 < DeMeo.beta p2 ∧ p1 > DeMeo.delta p2) := by
  intro hx
  have h1 := hx.1
  have h2 := hx.2
  unfold DeMeo.beta at h1
  unfold DeMeo.delta at h2
  linarith

/-- C2 (amended): none of the three unresolved branches terminates with the
empty sentinel; each reaches a `classy.logging.logger.warning` call with
the name `classy` unbound and raises `NameError`.  The Tier-1
indeterminate branch raises before any class is assigned (line 142
precedes the assignment at line 145); the S-complex fallback assigns the
named class `"S"` (line 248) and then raises (line 249); and the
C/X-complex fallback assigns `""` (line 327) and then raises (line 328).
Each classification terminates by exception, not by returning the empty
sentinel, and the competing classes are never logged. -/
theorem c2_amended :
    (∀ (s : DeMeo.DemeoSpec) (p1 p2 p3 p4 sl : ℚ),
      s.scores_demeo.take 4 = [p1, p2, p3, p4] → s.slope.head? = some sl →
      (p1 < -0.3 ∧ p2 ≥ 0.2 ∧ sl ≥ 0.4) →
      ¬(0.55 ≤ sl ∧ sl < 1.5) → ¬(0.4 ≤ sl ∧ sl < 0.55) →
      DeMeo.decision_tree s = .error DeMeo.nameErrorClassy)
    ∧ (∀ (s : DeMeo.DemeoSpec) (p1 p2 p3 p4 sl : ℚ),
      s.pc0_demeo = some p1 → s.pc1_demeo = some p2 → s.pc2_demeo = some p3 →
      s.pc3_demeo = some p4 → s.slope.head? = some sl →
      ¬(p1 ≥ DeMeo.alpha p2 ∧ p1 < DeMeo.beta p2 ∧ p1 > DeMeo.eta p2 ∧ p1 ≤ DeMeo.zeta p2) →
      ¬(p1 ≥ DeMeo.beta p2 ∧ p1 < DeMeo.gamma p2 ∧ p1 > DeMeo.eta p2 ∧ p1 ≤ DeMeo.epsilon p2) →
      ¬(p1 ≥ DeMeo.beta p2 ∧ p1 > DeMeo.epsilon p2 ∧ p1 < DeMeo.gamma p2) →
      DeMeo.demeo_s_complex s = .error DeMeo.nameErrorClassy)
    ∧ (∀ (s : DeMeo.DemeoSpec) (p1 p2 p3 p4 p5 sl : ℚ),
      s.pc0_demeo = some p1 → s.pc1_demeo = some p2 → s.pc2_demeo = some p3 →
      s.pc3_demeo = some p4 → s.pc4_demeo = some p5 → s.slope.head? = some sl →
      ¬(-0.2 < sl ∧ sl < 0 ∧ -1.2 < p1 ∧ p1 < 0 ∧ p4 < 0) →
      ¬(0.2 < sl ∧ sl < 0.38) →
      ¬(0.01 < p4 ∧ p4 < 0.14 ∧ -0.75 < p1 ∧ p1 < -0.27) →
      ¬(-0.04 < p4 ∧ p4 < 0.02 ∧ -0.07 < p5 ∧ p5 < -0.04) →
      ¬(-0.85 < p1 ∧ p1 < -0.45 ∧ -0.06 < p5 ∧ p5 < -0.02) →
      ¬(0.02 ≤ p5 ∧ p5 < 0.1 ∧ -0.6 < p1 ∧ p1 < -0.16) →
      ¬(-0.45 ≤ p1 ∧ p1 < 0.1 ∧ -0.06 < p5 ∧ p5 < 0.05) →
      ¬(-0.1 ≤ p1 ∧ p1 < 0.3 ∧ -0.5 < p2 ∧ p2 < -0.2) →
      DeMeo.demeo_c_and_x_complexes s = .error DeMeo.nameErrorClassy) := by
  refine ⟨?_, ?_, ?_⟩
  · intro s p1 p2 p3 p4 sl ht4 hsl hG h55 h44
    rw [tree_eq_tier1 s p1 p2 p3 p4 sl ht4 hsl]
    unfold DeMeo.demeoTier1
    rw [if_pos hG, if_neg h55, if_neg h44]
  · intro s p1 p2 p3 p4 sl h0 h1 h2 h3 hsl hg2 hg3 hg4
    unfold DeMeo.demeo_s_complex
    rw [h0, h1, h2, h3]
    simp only [DeMeo.getAttr, DeMeo.listHead, hsl]
    rw [if_neg (sw_guard_unsat p1 p2), if_neg hg2, if_neg hg3, if_neg hg4]
  · intro s p1 p2 p3 p4 p5 sl h0 h1 h2 h3 h4 hsl hB hX hPc h5 h6 h7 h8 h9
    unfold DeMeo.demeo_c_and_x_complexes
    rw [h0, h1, h2, h3, h4]
    simp only [DeMeo.getAttr, DeMeo.listHead, hsl]
    rw [if_neg hB, if_neg hX, if_neg hPc, if_neg h5, if_neg h6, if_neg h7, if_neg h8,
      if_neg h9]

/-- Counterexample for C2: a concrete spectrum entering the Tier-1
indeterminate branch — for which the claim asserts termination with the
empty class and a log of the competing classes — instead makes the
decision tree raise `NameError` at the unbound name `classy`, before any
class is assigned. -/
theorem c2_counterexample :
    c2qwSpec.scores_demeo.take 4 = [-0.5, 0.2, 0, 0]
    ∧ c2qwSpec.slope.head? = some 1.5
    ∧ ((-0.5 : ℚ) < -0.3 ∧ (0.2 : ℚ) ≥ 0.2 ∧ (1.5 : ℚ) ≥ 0.4)
    ∧ ¬((0.55 : ℚ) ≤ 1.5 ∧ (1.5 : ℚ) < 1.5) ∧ ¬((0.4 : ℚ) ≤ 1.5 ∧ (1.5 : ℚ) < 0.55)
    ∧ DeMeo.decision_tree c2qwSpec = .error DeMeo.nameErrorClassy := by
  refine ⟨rfl, rfl, by norm_num, by norm_num, by norm_num, ?_⟩
  norm_num [c2qwSpec, mkDemeo, DeMeo.decision_tree, DeMeo.demeoTier1]

/-- Witness for the amended C2 theorem: a concrete input reaching the
S-complex fallback raises at the unbound name after assigning "S". -/
theorem c2_amended_witness :
    DeMeo.demeo_s_complex c2sSpec = .error DeMeo.nameErrorClassy :=
  c2_amended.2.1 c2sSpec 0 0 0 0 0 rfl rfl rfl rfl rfl
    (by norm_num [DeMeo.alpha, DeMeo.beta, DeMeo.eta, DeMeo.zeta])
    (by norm_num [DeMeo.beta, DeMeo.gamma, DeMeo.eta, DeMeo.epsilon])
    (by norm_num [DeMeo.beta, DeMeo.gamma, DeMeo.epsilon])

/-- C6: in every ambiguous DeMeo sub-branch distinguishing a weathered
variant from its base class, the "w" variant is assigned exactly when
`slope >= 0.25`: the V/Vw and Q/Qw branches of the decision tree (stated
outside the Tier-1 guard region, inside which the source raises
`NameError` at an unbound name before step 2 is reached), and the
Sq/Sqw, Sr/Srw, Sv/Svw branches of the S-complex subtree; the S/Sw
branch carries the same `slope >= 0.25` test but its region guard
(`pc1 < beta(pc2) and pc1 > delta(pc2)`) is unsatisfiable, which the
third conjunct records. -/
theorem c6_w_threshold :
    (∀ (s : DeMeo.DemeoSpec) (p1 p2 p3 p4 sl : ℚ),
      s.scores_demeo.take 4 = [p1, p2, p3, p4] → s.slope.head? = some sl →
      ¬(p1 < -0.3 ∧ p2 ≥ 0.2 ∧ sl ≥ 0.4) →
      p1 ≥ DeMeo.gamma p2 →
      DeMeo.classOf (DeMeo.decision_tree s) = .ok (some (if sl ≥ 0.25 then "Vw" else "V")))
    ∧ (∀ (s : DeMeo.DemeoSpec) (p1 p2 p3 p4 sl : ℚ),
      s.scores_demeo.take 4 = [p1, p2, p3, p4] → s.slope.head? = some sl →
      ¬(p1 < -0.3 ∧ p2 ≥ 0.2 ∧ sl ≥ 0.4) →
      p1 > DeMeo.alpha p2 → ¬(p1 ≥ DeMeo.gamma p2) → p1 ≤ DeMeo.eta p2 →
      p1 < DeMeo.theta p2 →
      DeMeo.classOf (DeMeo.decision_tree s) = .ok (some (if sl ≥ 0.25 then "Qw" else "Q")))
    ∧ (∀ p1 p2 : ℚ, ¬(p1 < DeMeo.beta p2 ∧ p1 > DeMeo.delta p2))
    ∧ (∀ (s : DeMeo.DemeoSpec) (p1 p2 p3 p4 sl : ℚ),
      s.pc0_demeo = some p1 → s.pc1_demeo = some p2 → s.pc2_demeo = some p3 →
      s.pc3_demeo = some p4 → s.slope.head? = some sl →
      (p1 ≥ DeMeo.alpha p2 ∧ p1 < DeMeo.beta p2 ∧ p1 > DeMeo.eta p2 ∧ p1 ≤ DeMeo.zeta p2) →
      DeMeo.classOf (DeMeo.demeo_s_complex s) = .ok (some (if sl ≥ 0.25 then "Sqw" else "Sq")))
    ∧ (∀ (s : DeMeo.DemeoSpec) (p1 p2 p3 p4 sl : ℚ),
      s.pc0_demeo = some p1 → s.pc1_demeo = some p2 → s.pc2_demeo = some p3 →
      s.pc3_demeo = some p4 → s.slope.head? = some sl →
      (p1 ≥ DeMeo.beta p2 ∧ p1 < DeMeo.gamma p2 ∧ p1 > DeMeo.eta p2 ∧ p1 ≤ DeMeo.epsilon p2) →
      DeMeo.classOf (DeMeo.demeo_s_complex s) = .ok (some (if sl ≥ 0.25 then "Srw" else "Sr")))
    ∧ (∀ (s : DeMeo.DemeoSpec) (p1 p2 p3 p4 sl : ℚ),
      s.pc0_demeo = some p1 → s.pc1_demeo = some p2 → s.pc2_demeo = some p3 →
      s.pc3_demeo = some p4 → s.slope.head? = some sl →
      (p1 ≥ DeMeo.beta p2 ∧ p1 > DeMeo.epsilon p2 ∧ p1 < DeMeo.gamma p2) →
      DeMeo.classOf (DeMeo.demeo_s_complex s) = .ok (some (if sl ≥ 0.25 then "Svw" else "Sv"))) := by
  refine ⟨?_, ?_, sw_guard_unsat, ?_, ?_, ?_⟩
  · intro s p1 p2 p3 p4 sl ht4 hsl H0 hv
    rw [tree_eq_tier1 s p1 p2 p3 p4 sl ht4 hsl, tier1_skip s p1 p2 p3 sl H0]
    exact step23_V hv
  · intro s p1 p2 p3 p4 sl ht4 hsl H0 ha hng heta hth
    rw [tree_eq_tier1 s p1 p2 p3 p4 sl ht4 hsl, tier1_skip s p1 p2 p3 sl H0]
    exact step23_Q ha hng heta hth
  · intro s p1 p2 p3 p4 sl h0 h1 h2 h3 hsl hg2
    unfold DeMeo.classOf DeMeo.demeo_s_complex
    rw [h0, h1, h2, h3]
    simp only [DeMeo.getAttr, DeMeo.listHead, hsl]
    rw [if_neg (sw_guard_unsat p1 p2), if_pos hg2]
    by_cases hsl25 : sl ≥ 0.25 <;> simp [hsl25, Except.map]
  · intro s p1 p2 p3 p4 sl h0 h1 h2 h3 hsl hg3
    unfold DeMeo.classOf DeMeo.demeo_s_complex
    rw [h0, h1, h2, h3]
    simp only [DeMeo.getAttr, DeMeo.listHead, hsl]
    rw [if_neg (sw_guard_unsat p1 p2),
      if_neg (fun hx => absurd hg3.1 (not_le.mpr hx.2.1)), if_pos hg3]
    by_cases hsl25 : sl ≥ 0.25 <;> simp [hsl25, Except.map]
  · intro s p1 p2 p3 p4 sl h0 h1 h2 h3 hsl hg4
    unfold DeMeo.classOf DeMeo.demeo_s_complex
    rw [h0, h1, h2, h3]
    simp only [DeMeo.getAttr, DeMeo.listHead, hsl]
    rw [if_neg (sw_guard_unsat p1 p2),
      if_neg (fun hx => absurd hg4.1 (not_le.mpr hx.2.1)),
      if_neg (fun hx => absurd hx.2.2.2 (not_le.mpr hg4.2.1)), if_pos hg4]
    by_cases hsl25 : sl ≥ 0.25 <;> simp [hsl25, Except.map]

/-- Witness for C6: a concrete V-region spectrum with slope 0.3 gets "Vw"
and a concrete Sq-region spectrum with slope 0.1 gets "Sq". -/
theorem c6_witness :
    DeMeo.classOf (DeMeo.decision_tree c6vSpec) = .ok (some "Vw")
    ∧ DeMeo.classOf (DeMeo.demeo_s_complex c6sqSpec) = .ok (some "Sq") := by
  constructor
  · have h := c6_w_threshold.1 c6vSpec 0.5 0.2 0 0 0.3 rfl rfl (by norm_num)
      (by norm_num [DeMeo.gamma])
    rw [h]
    norm_num
  · have h := c6_w_threshold.2.2.2.1 c6sqSpec (-0.2) 0 0 0 0.1 rfl rfl rfl rfl rfl
      (by norm_num [DeMeo.alpha, DeMeo.beta, DeMeo.eta, DeMeo.zeta])
    rw [h]
    norm_num

/-- C8 (code bug): no classification ever completes in the staged source, so
no class or score values exist to compare across two runs.  Every call of
`demeo.classify` raises — its gate raises when the flag is false, and
past the gate line 105 references the unbound name `data` before
`scores_demeo` is assigned; on the concrete preprocessed spectrum `c8ds`
with a 41-point reflectance the raised error is exactly that `NameError`.
The Tholen module cannot even be imported, so its decision tree never
runs on any spectrum. -/
theorem c8_classification_never_completes :
    DeMeo.classify c8ds = .error DeMeo.nameErrorData
    ∧ (∀ s : DeMeo.DemeoSpec, ∃ e, DeMeo.classify s = .error e)
    ∧ (∀ s : Tholen.TholenSpec, Tholen.decision_tree s = .error Tholen.tholenImportError) :=
  ⟨rfl, demeoClassify_always_errors, fun _ => rfl⟩

end Classy
